import Mathlib

/-!
Verification of the computational core of `src/app.py`, a Dash application
presenting radiation-exposure information.  The core consists of:

* the module-level reference dose table `radiation_sources` (lines 11-20);
* the three dose-response models evaluated over `np.linspace(0, 100, 100)`
  (lines 25-29): `lnt_risk`, `threshold_risk`, `hormesis_risk`;
* the personal-dose callback `update_dose` (lines 196-198), which computes
  `flights * 0.04 + xrays * 0.1` and renders it with the format specifier
  `.2f` inside a fixed message string.

Python float arithmetic is embedded as exact rational arithmetic over `ℚ`;
all the literals appearing in the source (0.01, 0.04, 0.1, 0.005, 0.05, 10)
are written as the corresponding rationals.  The two-decimal display
formatting is modelled by `formatFixed2`, reproducing round-half-to-even.
-/

/-- The dict `radiation_sources` of src/app.py lines 11-20, as an ordered
association list from source name to dose in millisieverts. -/
def radiation_sources : List (String × ℚ) :=
  [ ("Background Radiation (Annual Avg)", 3),
    ("Chest X-ray", 1/10),
    ("Dental X-ray", 5/1000),
    ("Mammogram", 4/10),
    ("CT Scan (Abdomen)", 8),
    ("Flight (NYC to LA)", 4/100),
    ("Smoking (1 pack/day, Annual)", 70),
    ("Fukushima Evacuation Zone (Annual)", 12) ]

/-- Pointwise Linear No-Threshold model, from line 26 of src/app.py:
`lnt_risk = dose_values * 0.01` applies `x * 0.01` to every sample. -/
def lnt_risk_fn (x : ℚ) : ℚ := x * (1/100)

/-- Pointwise Threshold model, from line 27 of src/app.py:
`np.piecewise(dose_values, [dose_values < 10, dose_values >= 10],
[0, lambda x: (x - 10) * 0.01])`. -/
def threshold_risk_fn (x : ℚ) : ℚ :=
  if x < 10 then 0 else (x - 10) * (1/100)

/-- Pointwise Hormesis model, from lines 28-29 of src/app.py:
`np.piecewise(dose_values, [dose_values < 10, dose_values >= 10],
[lambda x: -0.005 * x + 0.05, lambda x: (x - 10) * 0.01])`. -/
def hormesis_risk_fn (x : ℚ) : ℚ :=
  if x < 10 then -(5/1000) * x + 5/100 else (x - 10) * (1/100)

/-- The sample grid `np.linspace(0, 100, 100)` of line 25: 100 evenly
spaced samples, sample `i` being `i * (100 / 99)`, so the first sample is
exactly 0 and the last exactly 100. -/
def dose_values : List ℚ := (List.range 100).map (fun (i : ℕ) => (i : ℚ) * (100 / 99))

/-- The vector `lnt_risk` of line 26. -/
def lnt_risk : List ℚ := dose_values.map lnt_risk_fn

/-- The vector `threshold_risk` of line 27. -/
def threshold_risk : List ℚ := dose_values.map threshold_risk_fn

/-- The vector `hormesis_risk` of lines 28-29. -/
def hormesis_risk : List ℚ := dose_values.map hormesis_risk_fn

/-- Round a rational to the nearest integer, ties to even — the rounding
performed by Python's fixed-point format specifier `.2f` (after scaling). -/
def roundHalfEven (q : ℚ) : ℤ :=
  let f : ℤ := Int.floor q
  let r : ℚ := q - (f : ℚ)
  if r < 1/2 then f
  else if (1 : ℚ)/2 < r then f + 1
  else if f % 2 = 0 then f else f + 1

/-- Render an integer number of hundredths as a signed decimal string with
exactly two digits after the point (`-4 ↦ "-0.04"`, `30 ↦ "0.30"`). -/
def renderScaled (s : ℤ) : String :=
  let a : ℕ := s.natAbs
  let sign : String := if s < 0 then "-" else ""
  let fracPart : ℕ := a % 100
  let fracDigits : String := (if fracPart < 10 then "0" else "") ++ toString fracPart
  sign ++ toString (a / 100) ++ "." ++ fracDigits

/-- Fixed two-decimal rendering of a rational, mirroring the `.2f`
format specifier used in the f-string of `update_dose`. -/
def formatFixed2 (q : ℚ) : String :=
  renderScaled (roundHalfEven (q * 100))

/-- The numeric total computed inside `update_dose` (line 197 of
src/app.py): `total_dose = (flights * 0.04) + (xrays * 0.1)`.  The slider
values are integers; the function performs no validation, so it is total
on all integers. -/
def totalDose (flights xrays : ℤ) : ℚ :=
  (flights : ℚ) * (4/100) + (xrays : ℚ) * (1/10)

/-- The callback `update_dose` of src/app.py lines 196-198: computes the
total and returns the display string produced by the f-string with the
total rendered via `.2f`. -/
def update_dose (flights xrays : ℤ) : String :=
  "Your estimated annual radiation dose from selected activities: "
    ++ formatFixed2 (totalDose flights xrays) ++ " mSv"

/-- On an exact integer number of hundredths, round-half-even is the
identity: there is nothing to round. -/
theorem roundHalfEven_intCast (k : ℤ) : roundHalfEven (k : ℚ) = k := by
  unfold roundHalfEven
  rw [Int.floor_intCast]
  norm_num

/-- The total computed by `update_dose`, scaled by 100, is the integer
`4 * flights + 10 * xrays`: the per-unit doses are exact hundredths, so
the `.2f` rendering never actually rounds. -/
theorem totalDose_scaled (flights xrays : ℤ) :
    totalDose flights xrays * 100 = ((4 * flights + 10 * xrays : ℤ) : ℚ) := by
  unfold totalDose
  push_cast
  ring

/-- Evaluation lemma: the callback output is the fixed message around the
integer-level rendering of `4 * flights + 10 * xrays` hundredths. -/
theorem update_dose_eq_renderScaled (flights xrays : ℤ) :
    update_dose flights xrays =
      "Your estimated annual radiation dose from selected activities: "
        ++ renderScaled (4 * flights + 10 * xrays) ++ " mSv" := by
  unfold update_dose formatFixed2
  rw [totalDose_scaled, roundHalfEven_intCast]

/-- C1: for every pair of non-negative integer counts, the aggregator
inside `update_dose` returns `flights * 0.04 + xrays * 0.1`; in particular
the totals at (0,0), (5,1) and (50,10) are 0, 0.30 and 3.00 mSv exactly,
and the callback renders each in the fixed message with two decimals. -/
theorem computeTotalDose_spec :
    (∀ flights xrays : ℕ,
      totalDose flights xrays = (flights : ℚ) * (4/100) + (xrays : ℚ) * (1/10)) ∧
    totalDose 0 0 = 0 ∧ totalDose 5 1 = 30/100 ∧ totalDose 50 10 = 3 ∧
    update_dose 0 0 = "Your estimated annual radiation dose from selected activities: 0.00 mSv" ∧
    update_dose 5 1 = "Your estimated annual radiation dose from selected activities: 0.30 mSv" ∧
    update_dose 50 10 = "Your estimated annual radiation dose from selected activities: 3.00 mSv" := by
  refine ⟨fun f x => by unfold totalDose; push_cast; ring,
    by norm_num [totalDose], by norm_num [totalDose], by norm_num [totalDose], ?_, ?_, ?_⟩
  · rw [update_dose_eq_renderScaled]; decide
  · rw [update_dose_eq_renderScaled]; decide
  · rw [update_dose_eq_renderScaled]; decide

/-- C2 counterexample: called with the negative count `flights = -1`, the
code does not fail with `InvalidInput` — it returns a total (here a
negative one, rendered as -0.04 mSv). -/
theorem update_dose_negative_count_returns_total :
    update_dose (-1) 0 =
      "Your estimated annual radiation dose from selected activities: -0.04 mSv" := by
  rw [update_dose_eq_renderScaled]; decide

/-- C2 (amended): `update_dose` performs no validation; for any counts
with at least one negative, it still returns the linear total
`flights * 0.04 + xrays * 0.1` rendered in the fixed message. -/
theorem update_dose_no_validation (flights xrays : ℤ)
    (h : flights < 0 ∨ xrays < 0) :
    update_dose flights xrays =
      "Your estimated annual radiation dose from selected activities: "
        ++ formatFixed2 ((flights : ℚ) * (4/100) + (xrays : ℚ) * (1/10)) ++ " mSv" := rfl

/-- C2 witness: the amended statement at `flights = -2`, `xrays = 3`. -/
theorem update_dose_no_validation_witness :
    update_dose (-2) 3 =
      "Your estimated annual radiation dose from selected activities: "
        ++ formatFixed2 (((-2 : ℤ) : ℚ) * (4/100) + ((3 : ℤ) : ℚ) * (1/10)) ++ " mSv" :=
  update_dose_no_validation (-2) 3 (Or.inl (by norm_num))

/-- C3: the Hormesis risk is non-negative at every dose `x ≥ 0`, and its
value at zero dose is 0.05. -/
theorem hormesis_nonneg (x : ℚ) (h : 0 ≤ x) :
    0 ≤ hormesis_risk_fn x ∧ hormesis_risk_fn 0 = 5/100 := by
  constructor
  · unfold hormesis_risk_fn
    by_cases hx : x < 10
    · rw [if_pos hx]; linarith
    · rw [if_neg hx]; push_neg at hx; linarith
  · norm_num [hormesis_risk_fn]

/-- C3 witness: non-negativity at the concrete dose 7. -/
theorem hormesis_nonneg_witness :
    0 ≤ hormesis_risk_fn 7 ∧ hormesis_risk_fn 0 = 5/100 :=
  hormesis_nonneg 7 (by norm_num)

/-- C4: the Threshold model returns 0 below 10 mSv, `0.01 * (x - 10)` at
and above 10 mSv, and 0 exactly at the breakpoint. -/
theorem threshold_piecewise (x : ℚ) :
    (0 ≤ x → x < 10 → threshold_risk_fn x = 0) ∧
    (10 ≤ x → threshold_risk_fn x = (1/100) * (x - 10)) ∧
    threshold_risk_fn 10 = 0 := by
  refine ⟨fun _ hx => ?_, fun hx => ?_, ?_⟩
  · unfold threshold_risk_fn; rw [if_pos hx]
  · unfold threshold_risk_fn; rw [if_neg (not_lt.mpr hx)]; ring
  · norm_num [threshold_risk_fn]

/-- C4 witness: both branches at concrete doses 5 and 20, and the
breakpoint value. -/
theorem threshold_piecewise_witness :
    threshold_risk_fn 5 = 0 ∧ threshold_risk_fn 20 = (1/100) * (20 - 10) ∧
    threshold_risk_fn 10 = 0 :=
  ⟨(threshold_piecewise 5).1 (by norm_num) (by norm_num),
   (threshold_piecewise 20).2.1 (by norm_num),
   (threshold_piecewise 10).2.2⟩

/-- C5: the Hormesis model returns `-0.005 * x + 0.05` below 10 mSv and
`0.01 * (x - 10)` at and above; both branch formulas yield 0 at the
10 mSv breakpoint, so the model is continuous there. -/
theorem hormesis_piecewise (x : ℚ) :
    (0 ≤ x → x < 10 → hormesis_risk_fn x = -(5/1000) * x + 5/100) ∧
    (10 ≤ x → hormesis_risk_fn x = (1/100) * (x - 10)) ∧
    (-(5/1000) * (10 : ℚ) + 5/100 = 0 ∧ hormesis_risk_fn 10 = 0) := by
  refine ⟨fun _ hx => ?_, fun hx => ?_, by norm_num, ?_⟩
  · unfold hormesis_risk_fn; rw [if_pos hx]
  · unfold hormesis_risk_fn; rw [if_neg (not_lt.mpr hx)]; ring
  · norm_num [hormesis_risk_fn]

/-- C5 witness: both branches at concrete doses 2 and 30, and the
breakpoint agreement. -/
theorem hormesis_piecewise_witness :
    hormesis_risk_fn 2 = -(5/1000) * 2 + 5/100 ∧
    hormesis_risk_fn 30 = (1/100) * (30 - 10) ∧ hormesis_risk_fn 10 = 0 :=
  ⟨(hormesis_piecewise 2).1 (by norm_num) (by norm_num),
   (hormesis_piecewise 30).2.1 (by norm_num),
   (hormesis_piecewise 10).2.2.2⟩

/-- C6: the Linear No-Threshold model is exactly `0.01 * x` at every
dose `x ≥ 0`. -/
theorem lnt_proportional (x : ℚ) (h : 0 ≤ x) : lnt_risk_fn x = (1/100) * x := by
  unfold lnt_risk_fn; ring

/-- C6 witness: the statement at the concrete dose 42. -/
theorem lnt_proportional_witness : lnt_risk_fn 42 = (1/100) * 42 :=
  lnt_proportional 42 (by norm_num)

/-- C7: over the default range `linspace(0, 100, 100)`, the three risk
vectors have exactly 100 entries each, the first dose sample is 0, the
last is 100, and the LNT risk at the last sample is 1. -/
theorem evaluateModels_default_range :
    dose_values.length = 100 ∧ lnt_risk.length = 100 ∧
    threshold_risk.length = 100 ∧ hormesis_risk.length = 100 ∧
    dose_values[0]? = some 0 ∧ dose_values[99]? = some 100 ∧
    lnt_risk[99]? = some 1 := by
  refine ⟨by simp only [dose_values, List.length_map, List.length_range],
    by simp only [lnt_risk, dose_values, List.length_map, List.length_range],
    by simp only [threshold_risk, dose_values, List.length_map, List.length_range],
    by simp only [hormesis_risk, dose_values, List.length_map, List.length_range],
    ?_, ?_, ?_⟩
  · rw [dose_values, List.getElem?_map, List.getElem?_range (by norm_num)]
    norm_num
  · rw [dose_values, List.getElem?_map, List.getElem?_range (by norm_num)]
    norm_num
  · rw [lnt_risk, dose_values, List.map_map, List.getElem?_map,
      List.getElem?_range (by norm_num)]
    norm_num [lnt_risk_fn]

/-- C8: the reference table has exactly 8 records with pairwise distinct,
non-empty names; smoking maps to 70.0 mSv and dental X-ray to 0.005 mSv.
The embedding is an immutable constant, mirroring the source. -/
theorem reference_table_contract :
    radiation_sources.length = 8 ∧
    (radiation_sources.map Prod.fst).Nodup ∧
    radiation_sources.all (fun p => p.1 != "") = true ∧
    List.lookup ("Smoking (1 pack/day, Annual)") radiation_sources = some 70 ∧
    List.lookup ("Dental X-ray") radiation_sources = some (5/1000) := by
  refine ⟨rfl, by decide, by decide, rfl, rfl⟩

/-- C9: at and above the 10 mSv breakpoint the Threshold and Hormesis
models coincide, both equal to `0.01 * (x - 10)`. -/
theorem threshold_hormesis_agree_above (x : ℚ) (h : 10 ≤ x) :
    threshold_risk_fn x = hormesis_risk_fn x ∧
    hormesis_risk_fn x = (1/100) * (x - 10) := by
  have hx : ¬ x < 10 := not_lt.mpr h
  unfold threshold_risk_fn hormesis_risk_fn
  rw [if_neg hx, if_neg hx]
  exact ⟨rfl, by ring⟩

/-- C9 witness: agreement at the concrete dose 15. -/
theorem threshold_hormesis_agree_above_witness :
    threshold_risk_fn 15 = hormesis_risk_fn 15 ∧
    hormesis_risk_fn 15 = (1/100) * (15 - 10) :=
  threshold_hormesis_agree_above 15 (by norm_num)

/-- C10: the total dose of `update_dose` is monotone: raising either
count (or both) never decreases the total. -/
theorem totalDose_monotone (f1 x1 f2 x2 : ℕ) (hf : f1 ≤ f2) (hx : x1 ≤ x2) :
    totalDose f1 x1 ≤ totalDose f2 x2 := by
  unfold totalDose
  have h1 : (f1 : ℚ) ≤ (f2 : ℚ) := by exact_mod_cast hf
  have h2 : (x1 : ℚ) ≤ (x2 : ℚ) := by exact_mod_cast hx
  push_cast
  nlinarith

/-- C10 witness: monotonicity from counts (1,2) to (3,4). -/
theorem totalDose_monotone_witness : totalDose 1 2 ≤ totalDose 3 4 :=
  totalDose_monotone 1 2 3 4 (by norm_num) (by norm_num)
